import Mathlib

/-!
Shallow embedding of the long-running task orchestration core of the
video-generation backend: the retry decorator (`app/utils/retry_decorator.py`),
the exponential backoff policy (tenacity `wait_exponential`), the task pollers
(`WanxService._poll_task`, `WanxI2IService._poll_task`,
`VolcVideoService._poll_task_result`), the SSE stream classifier
(`SoraService._parse_stream_response`), the asset relocators
(`VolcVideoService._save_video_to_oss`, `SoraService._save_video_to_oss`) and
the OSS upload operations (`OSSService.upload_file`, `OSSService.upload_from_url`).
-/

namespace VideoGen

/-- Structured stand-in for the `detail` payloads attached to the exceptions in
`app/exceptions/custom_exceptions.py` (free-form strings, vendor JSON bodies,
OSS error data). -/
inductive ErrDetail where
  | text (s : String)
  | ossText (code : String) (msg : String)
  | wanxBody (status : Option String) (message : Option String) (rest : String)
  | volcBody (status : Option String) (videoUrl : Option String) (rest : String)
  deriving Repr, DecidableEq

/-- The exception taxonomy of the backend, from
`app/exceptions/custom_exceptions.py`: `ApiError` (base, default status 500),
`DashScopeApiError` (default status 502), `TaskFailedError` (status 500, carries
`task_id`), `TaskTimeoutError` (status 408, carries `task_id` and `timeout`).
`typeErr` models a Python `TypeError` raised by the interpreter itself (e.g. a
call passing an unsupported keyword argument). `httpErr` models an
`httpx.HTTPError`. Distinct constructors model distinct Python classes. -/
inductive PyErr where
  | apiError (message : String) (statusCode : Nat) (detail : Option ErrDetail)
  | dashScopeApiError (message : String) (statusCode : Nat) (detail : Option ErrDetail)
  | taskFailedError (message : String) (taskId : Option String) (detail : Option ErrDetail)
  | taskTimeoutError (message : String) (taskId : Option String) (timeout : Option Nat)
  | httpErr (msg : String)
  | typeErr (msg : String)
  deriving Repr, DecidableEq

/-- Python `str(e)` on the exceptions above: `ApiError.__init__` calls
`super().__init__(self.message)`, so `str` returns the message. -/
def PyErr.message : PyErr → String
  | .apiError m _ _ => m
  | .dashScopeApiError m _ _ => m
  | .taskFailedError m _ _ => m
  | .taskTimeoutError m _ _ => m
  | .httpErr m => m
  | .typeErr m => m

/-! ### Retry decorator (`app/utils/retry_decorator.py`)

A wrapped operation is modelled as `op : Nat → Except PyErr α`, giving the
outcome of its k-th invocation (1-indexed).  `tenacityRun op start remaining`
models tenacity `retry(stop=stop_after_attempt(maxAttempts), reraise=True)`
applied to `op`, starting at attempt `start` with `remaining` attempts allowed:
tenacity runs the operation, and on an exception — its default predicate
retries on every `Exception` — it sleeps and re-runs until the attempt count
reaches the stop bound, then re-raises the last exception (`reraise=True`).
The second component counts how many times the wrapped operation was invoked. -/
def tenacityRun (op : Nat → Except PyErr α) : Nat → Nat → Except PyErr α × Nat
  | start, 0 => (op start, 1)
  | start, 1 => (op start, 1)
  | start, n + 2 =>
    match op start with
    | .ok a => (.ok a, 1)
    | .error _ =>
      let r := tenacityRun op (start + 1) (n + 1)
      (r.1, r.2 + 1)

/-- `retry_decorator` from `app/utils/retry_decorator.py`: when
`settings.enable_retry` is false the decorator returns the original function
unwrapped (one invocation, exception propagates as-is); when true it wraps the
function with tenacity as in `tenacityRun`. -/
def retry_decorator (enableRetry : Bool) (maxAttempts : Nat)
    (op : Nat → Except PyErr α) : Except PyErr α × Nat :=
  if enableRetry then tenacityRun op 1 maxAttempts else (op 1, 1)

/-! ### Backoff policy (tenacity `wait_exponential`) -/

/-- tenacity `wait_exponential(multiplier, min, max).__call__`: for the failed
attempt numbered `n` (1-indexed) the sleep is
`max(max(0, min), min(multiplier * 2^(n-1), max))`.  Equivalently this is the
delay preceding attempt `n + 1`. -/
def wait_exponential (multiplier wmin wmax : ℚ) (n : Nat) : ℚ :=
  max (max 0 wmin) (min (multiplier * 2 ^ (n - 1)) wmax)

/-- Modelled from the spec: `clamp(x, min, max)` as used in the sentence
"Delay = clamp(multiplier * 2^(n-1), min, max)". -/
def clampSpec (x lo hi : ℚ) : ℚ :=
  max lo (min x hi)

/-! ### Wanx task poller (`WanxService._poll_task`, `app/services/wanx_service.py`)

Each poll cycle issues `client.get`; the outcome is either a raised
`httpx.HTTPError` or a response with an HTTP status code and a parsed JSON
body.  Of the body the loop reads `output.task_status` and, on `FAILED`,
`output.message`; the rest of the body is carried opaquely. -/
structure WanxData where
  taskStatus : Option String
  message : Option String
  rest : String
  deriving Repr, DecidableEq

/-- Outcome of one vendor poll call (`client.get` on `/tasks/{task_id}`). -/
inductive PollOutcome where
  | httpRaise (msg : String)
  | resp (statusCode : Nat) (data : WanxData)
  deriving Repr, DecidableEq

/-- What one iteration of the poll loop decides to do with a poll outcome. -/
inductive PollStep where
  | succeed (d : WanxData)
  | fail (e : PyErr)
  | keepPolling
  deriving Repr, DecidableEq

/-- The per-cycle classification performed by the body of
`WanxService._poll_task`: a non-200 response → log a warning, sleep, continue;
a raised `httpx.HTTPError` → log, sleep, continue; `SUCCEEDED` → return the
body; `FAILED` → raise `TaskFailedError` with the body as detail;
`PENDING`/`RUNNING` → sleep, continue; any other status → log "unknown task
status", sleep, continue. -/
def wanxClassify (taskId : String) (o : PollOutcome) : PollStep :=
  match o with
  | .httpRaise _ => .keepPolling
  | .resp code d =>
    if code ≠ 200 then .keepPolling
    else if d.taskStatus = some "SUCCEEDED" then .succeed d
    else if d.taskStatus = some "FAILED" then
      .fail (.taskFailedError "任务执行失败" (some taskId)
        (some (.wanxBody d.taskStatus d.message d.rest)))
    else if d.taskStatus = some "PENDING" ∨ d.taskStatus = some "RUNNING" then .keepPolling
    else .keepPolling

/-- The loop of `WanxService._poll_task`: `for attempt in range(max_attempts)`,
each iteration polling once (`poll done` is the outcome of the poll call on
iteration `done`, 0-indexed) and acting per `wanxClassify`; when the loop ends
without a terminal outcome it raises
`TaskTimeoutError(message, task_id, timeout = max_attempts * poll_interval)`.
Arguments of the recursion: `done` iterations already executed, `remaining`
iterations left.  Returns the result and the number of poll calls issued. -/
def wanxPollGo (taskId : String) (pollInterval : Nat) (poll : Nat → PollOutcome) :
    Nat → Nat → Except PyErr WanxData × Nat
  | done, 0 =>
    (.error (.taskTimeoutError "任务执行超时" (some taskId) (some (done * pollInterval))), 0)
  | done, remaining + 1 =>
    match wanxClassify taskId (poll done) with
    | .succeed d => (.ok d, 1)
    | .fail e => (.error e, 1)
    | .keepPolling =>
      let r := wanxPollGo taskId pollInterval poll (done + 1) remaining
      (r.1, r.2 + 1)

/-- `WanxService._poll_task(task_id, max_attempts)`. -/
def wanxPollTask (taskId : String) (maxAttempts pollInterval : Nat)
    (poll : Nat → PollOutcome) : Except PyErr WanxData × Nat :=
  wanxPollGo taskId pollInterval poll 0 maxAttempts

/-- The per-cycle classification performed by the body of
`WanxI2IService._poll_task` (`app/services/wanx_i2i_service.py`): identical
branching to `wanxClassify`, but `FAILED` raises a plain
`ApiError("任务执行失败", detail=output.message or "未知错误")`. -/
def wanxI2IClassify (o : PollOutcome) : PollStep :=
  match o with
  | .httpRaise _ => .keepPolling
  | .resp code d =>
    if code ≠ 200 then .keepPolling
    else if d.taskStatus = some "SUCCEEDED" then .succeed d
    else if d.taskStatus = some "FAILED" then
      .fail (.apiError "任务执行失败" 500 (some (.text (d.message.getD "未知错误"))))
    else if d.taskStatus = some "PENDING" ∨ d.taskStatus = some "RUNNING" then .keepPolling
    else .keepPolling

/-! ### Volc task poller (`VolcVideoService._poll_task_result`,
`app/services/volc_video_service.py`)

`_get_task_result` either raises (`ApiError` on an HTTP status error or a
non-10000 vendor code) or returns the `data` dict, of which the loop reads
`status` and `video_url`.  Note the two raise sites
`ApiError(..., details=...)`: `ApiError.__init__` accepts only
`message, status_code, detail`, so passing the keyword `details` makes the
constructor call itself raise `TypeError` before any `ApiError` exists. -/
structure VolcData where
  status : Option String
  videoUrl : Option String
  rest : String
  deriving Repr, DecidableEq

/-- The `TypeError` produced by calling `ApiError(msg, details=...)`. -/
def volcKwargTypeErr : PyErr :=
  .typeErr "ApiError.__init__ got an unexpected keyword argument: details"

/-- The loop of `VolcVideoService._poll_task_result`:
`while attempts < max_poll_attempts`, each iteration calling
`_get_task_result` (whose raised exception propagates out of the loop), then:
`status == "done"` → return the data if `video_url` is present, else raise
`ApiError("任务完成但未返回视频URL")`; `status in ["not_found", "expired"]` →
the `ApiError(..., details=...)` raise site, which raises `TypeError`;
otherwise sleep and increment `attempts`.  Exhausting the loop reaches the
timeout raise site `ApiError(f"任务超时...", details=...)`, which likewise
raises `TypeError`.  Returns the result and the number of `_get_task_result`
calls. -/
def volcPollGo (poll : Nat → Except PyErr VolcData) :
    Nat → Nat → Except PyErr VolcData × Nat
  | _done, 0 => (.error volcKwargTypeErr, 0)
  | done, remaining + 1 =>
    match poll done with
    | .error e => (.error e, 1)
    | .ok d =>
      if d.status = some "done" then
        match d.videoUrl with
        | some _ => (.ok d, 1)
        | none =>
          (.error (.apiError "任务完成但未返回视频URL" 500
            (some (.volcBody d.status d.videoUrl d.rest))), 1)
      else if d.status = some "not_found" ∨ d.status = some "expired" then
        (.error volcKwargTypeErr, 1)
      else
        let r := volcPollGo poll (done + 1) remaining
        (r.1, r.2 + 1)

/-- `VolcVideoService._poll_task_result(req_key, task_id)` with
`max_poll_attempts` poll-cycle budget. -/
def volcPollTask (maxAttempts : Nat) (poll : Nat → Except PyErr VolcData) :
    Except PyErr VolcData × Nat :=
  volcPollGo poll 0 maxAttempts

/-- `true` iff a poll result is a raised `TaskTimeoutError` (used to state that
an error is, or is not, of the TaskTimeout class). -/
def errIsTaskTimeout : Except PyErr VolcData → Bool
  | .error (.taskTimeoutError _ _ _) => true
  | _ => false

/-! ### Sora stream classifier (`SoraService._parse_stream_response`,
`app/services/sora_service.py`)

String helpers mirroring the Python string operations used by the parser:
`in` (substring test), `str.lower`, `str.strip`, and the
`re.search(r"\[点击这里\]\((https?://[^\)]+)\)", content)` extraction. -/

/-- Python `pat in s` on the character list level: some suffix of `s` starts
with `pat`. -/
def containsSub : List Char → List Char → Bool
  | _, [] => true
  | [], _ :: _ => false
  | c :: cs, p :: ps => ((p :: ps).isPrefixOf (c :: cs)) || containsSub cs (p :: ps)

/-- Python `pat in s` for strings. -/
def strContains (s pat : String) : Bool :=
  containsSub s.toList pat.toList

/-- Python `s.lower()` (only ASCII letters occur in the patterns involved). -/
def pyLower (s : String) : String :=
  ⟨s.toList.map Char.toLower⟩

/-- Python `s.strip()`: drop whitespace from both ends. -/
def pyStrip (s : String) : String :=
  ⟨((s.toList.dropWhile Char.isWhitespace).reverse.dropWhile Char.isWhitespace).reverse⟩

/-- Given the characters following an occurrence of `[点击这里](`, extract the
URL group of `re.search(r"\[点击这里\]\((https?://[^\)]+)\)", content)` at this
occurrence: the maximal run of non-`)` characters, which must be non-empty
after the scheme and be followed by a closing `)`. -/
def urlAt (rest : List Char) : Option (List Char) :=
  let url := rest.takeWhile (fun c => c ≠ ')')
  if (("http://".toList.isPrefixOf url && 7 < url.length) ||
      ("https://".toList.isPrefixOf url && 8 < url.length)) &&
      url.length < rest.length then
    some url
  else none

/-- Scan for the first occurrence of `[点击这里](` whose tail yields a URL per
`urlAt` — the first match of the regular expression in the content. -/
def findLink : List Char → Option (List Char)
  | [] => none
  | c :: cs =>
    if "[点击这里](".toList.isPrefixOf (c :: cs) then
      match urlAt ((c :: cs).drop "[点击这里](".toList.length) with
      | some u => some u
      | none => findLink cs
    else findLink cs

/-- The `re.search` link extraction on a content string. -/
def soraMatchLink (content : String) : Option String :=
  (findLink content.toList).map fun l => ⟨l⟩

/-- The error test of `_parse_stream_response`:
`'error' in content.lower() or '失败' in content or '错误' in content`. -/
def soraIsError (content : String) : Bool :=
  strContains (pyLower content) "error" || strContains content "失败" ||
    strContains content "错误"

/-- One line of the SSE stream, after the `data: ` framing and JSON decoding
that `_parse_stream_response` performs: `blank` (falsy line, skipped),
`other` (no `data: ` prefix, skipped), `done` (`data: [DONE]`, breaks the
loop), `badJson` (JSON decode error, skipped), `content c` (a decoded chunk
whose `choices[0].delta.content` is `c`). -/
inductive SSELine where
  | blank
  | other (s : String)
  | done
  | badJson (s : String)
  | content (c : String)
  deriving Repr, DecidableEq

/-- Mutable state of the parse loop: `video_url` and `error_message`. -/
structure SoraParseState where
  videoUrl : Option String
  errorMessage : Option String
  deriving Repr, DecidableEq

/-- Effect of one content chunk on the parse state: if the content is truthy,
an error-looking content sets `error_message = content.strip()`, and a content
containing `视频生成成功` whose regex search matches sets `video_url` to the
captured URL. -/
def soraStep (st : SoraParseState) : SSELine → SoraParseState
  | .content c =>
    if c ≠ "" then
      let st1 := if soraIsError c then ⟨st.videoUrl, some (pyStrip c)⟩ else st
      if strContains c "视频生成成功" then
        match soraMatchLink c with
        | some u => ⟨some u, st1.errorMessage⟩
        | none => st1
      else st1
    else st
  | _ => st

/-- The line loop of `_parse_stream_response`, stopping at `data: [DONE]`. -/
def soraFold (st : SoraParseState) : List SSELine → SoraParseState
  | [] => st
  | .done :: _ => st
  | l :: ls => soraFold (soraStep st l) ls

/-- `SoraService._parse_stream_response` on a fully received stream: fold the
lines, then — error message first — raise
`ApiError("视频生成失败", detail=error_message)` if any error was seen, raise
`ApiError("未能获取视频链接", ...)` if no URL was found, else return the URL. -/
def soraParseStream (lines : List SSELine) : Except PyErr String :=
  let st := soraFold ⟨none, none⟩ lines
  match st.errorMessage with
  | some m => .error (.apiError "视频生成失败" 500 (some (.text m)))
  | none =>
    match st.videoUrl with
    | none => .error (.apiError "未能获取视频链接" 500 (some (.text "视频生成可能失败，请稍后重试")))
    | some u => .ok u

/-! ### Asset relocators -/

/-- The dict returned by `OSSService.upload_file` /
`OSSService.upload_from_url`. -/
structure UploadResult where
  objectKey : String
  url : String
  size : Nat
  contentType : Option String
  etag : String
  bucket : String
  deriving Repr, DecidableEq

/-- `VolcVideoService._save_video_to_oss(temp_video_url, video_type)`:
builds a timestamped filename, calls `oss_service.upload_from_url` (injected
here as its outcome on that url/filename) and returns the permanent URL; on
ANY exception it logs and returns the original ephemeral `temp_video_url`
(the degradation fallback). -/
def volcSaveVideoToOss (tempVideoUrl videoType timestamp : String)
    (upload_from_url : String → String → Except PyErr UploadResult) : String :=
  let filename := "volc_" ++ videoType ++ "_" ++ timestamp ++ ".mp4"
  match upload_from_url tempVideoUrl filename with
  | .ok ossResult => ossResult.url
  | .error _ => tempVideoUrl

/-- One un-decorated execution of `SoraService._save_video_to_oss`: download
the temporary URL (`fetch`; a raised `httpx.HTTPError` is re-raised as
`ApiError("下载视频失败", detail="无法从临时URL下载视频: " + str(e))`), then
upload via `oss_service.upload_file` (any exception there is re-raised as
`ApiError("转存视频失败", detail=str(e))`), returning `result["url"]`. -/
def soraSaveAttempt (fetch : Except String Nat)
    (upload_file : Nat → Except PyErr UploadResult) : Except PyErr String :=
  match fetch with
  | .error msg =>
    .error (.apiError "下载视频失败" 500 (some (.text ("无法从临时URL下载视频: " ++ msg))))
  | .ok nbytes =>
    match upload_file nbytes with
    | .ok result => .ok result.url
    | .error e => .error (.apiError "转存视频失败" 500 (some (.text e.message)))

/-- `SoraService._save_video_to_oss`, which is wrapped by
`@retry_decorator(max_attempts=3, ...)`: the k-th invocation downloads with
outcome `fetch k` and uploads with outcome `upload_file k`. -/
def soraSaveVideoToOss (enableRetry : Bool) (maxAttempts : Nat)
    (fetch : Nat → Except String Nat)
    (upload_file : Nat → Nat → Except PyErr UploadResult) :
    Except PyErr String × Nat :=
  retry_decorator enableRetry maxAttempts
    (fun k => soraSaveAttempt (fetch k) (upload_file k))

/-! ### OSS service (`app/services/oss_service.py`) -/

/-- The `max_file_size` attribute: a finite byte limit from settings, or the
`float("inf")` that `upload_from_url` installs temporarily. -/
inductive SizeLimit where
  | finite (n : Nat)
  | inf
  deriving Repr, DecidableEq

/-- The size check `file_size > self.max_file_size`
(`n > float("inf")` is false for every finite `n`). -/
def sizeExceeds (fileSize : Nat) : SizeLimit → Bool
  | .finite m => fileSize > m
  | .inf => false

/-- Outcome of `bucket.put_object`. -/
inductive PutOutcome where
  | ok (etag : String)
  | ossRaise (code : String) (msg : String)
  | otherRaise (msg : String)
  deriving Repr, DecidableEq

/-- `OSSService.upload_file(file_data, filename, category, content_type)`.
`fileSize` is `len(file_data.read())`; `objectKey` is the generated
collision-resistant key; `put` the outcome of `bucket.put_object`.  If the
size check fails, `ApiError("文件大小超过限制")` is raised — and, being an
`Exception` but not an `OssError`, is caught by the trailing
`except Exception` clause and re-raised as
`ApiError("文件上传失败", detail=str(e))` — without `put_object` ever being
invoked (second component: whether `put_object` ran).  An `OssError` from
`put_object` becomes `ApiError("文件上传失败", detail="OSS错误: ...")`. -/
def oss_upload_file (maxFileSize : SizeLimit) (fileSize : Nat) (objectKey : String)
    (contentType : Option String) (publicRead : Bool)
    (publicUrl signedUrl : String → String) (bucketName : String)
    (put : PutOutcome) : Except PyErr UploadResult × Bool :=
  if sizeExceeds fileSize maxFileSize then
    (.error (.apiError "文件上传失败" 500 (some (.text "文件大小超过限制"))), false)
  else
    match put with
    | .ossRaise code msg =>
      (.error (.apiError "文件上传失败" 500 (some (.ossText code msg))), true)
    | .otherRaise msg =>
      (.error (.apiError "文件上传失败" 500 (some (.text msg))), true)
    | .ok etag =>
      let url := if publicRead then publicUrl objectKey else signedUrl objectKey
      (.ok ⟨objectKey, url, fileSize, contentType, etag, bucketName⟩, true)

/-- `OSSService.upload_from_url(url, filename, category)`: download the source
URL (`download` is either a raised `httpx.HTTPError` message or the pair of
`len(response.content)` and the `Content-Type` header); then save
`original_max_size = self.max_file_size`, set `self.max_file_size =
float("inf")`, call `upload_file`, and in a `finally` restore
`self.max_file_size = original_max_size`.  An exception from `upload_file` is
caught by `except Exception` and re-raised as
`ApiError("从URL上传失败", detail=str(e))`.  Returns the `max_file_size`
attribute after the call, the result, and whether `put_object` ran. -/
def oss_upload_from_url (maxFileSize : SizeLimit)
    (download : Except String (Nat × Option String)) (objectKey : String)
    (publicRead : Bool) (publicUrl signedUrl : String → String)
    (bucketName : String) (put : PutOutcome) :
    SizeLimit × Except PyErr UploadResult × Bool :=
  match download with
  | .error msg =>
    (maxFileSize, .error (.apiError "下载文件失败" 500 (some (.text msg))), false)
  | .ok (fileSize, contentType) =>
    let originalMaxSize := maxFileSize
    let r := oss_upload_file .inf fileSize objectKey contentType publicRead
      publicUrl signedUrl bucketName put
    match r.1 with
    | .ok result => (originalMaxSize, .ok result, r.2)
    | .error e =>
      (originalMaxSize, .error (.apiError "从URL上传失败" 500 (some (.text e.message))), r.2)

/-- `true` iff a relocation result is a normal return (not a raised error). -/
def resultIsOk : Except PyErr String → Bool
  | .ok _ => true
  | .error _ => false

/-- `true` iff a poll-cycle decision raises a failure. -/
def stepIsFail : PollStep → Bool
  | .fail _ => true
  | _ => false

/-- The status vocabulary recognized by the Wanx poll loops. -/
def recognizedStatus (s : Option String) : Bool :=
  s == some "SUCCEEDED" || s == some "FAILED" || s == some "PENDING" || s == some "RUNNING"

/-! ## Helper lemmas -/

/-- If the wrapped operation raises on every invocation, the tenacity wrapper
invokes it once per allowed attempt and ends with the last attempt's error. -/
theorem tenacityRun_allFail {α : Type} (op : Nat → Except PyErr α) (e : Nat → PyErr)
    (hop : ∀ k, op k = Except.error (e k)) :
    ∀ n start, tenacityRun op start (n + 1) = (Except.error (e (start + n)), n + 1) := by
  intro n
  induction n with
  | zero => intro start; simp [tenacityRun, hop start]
  | succ m ih =>
    intro start
    have harith : start + 1 + m = start + (m + 1) := by omega
    simp only [tenacityRun, hop start]
    rw [ih (start + 1), harith]

/-- The Wanx poll loop issues at most `remaining` poll calls. -/
theorem wanxPollGo_count_le (taskId : String) (interval : Nat) (poll : Nat → PollOutcome) :
    ∀ remaining done, (wanxPollGo taskId interval poll done remaining).2 ≤ remaining := by
  intro remaining
  induction remaining with
  | zero => intro done; simp [wanxPollGo]
  | succ m ih =>
    intro done
    cases h : wanxClassify taskId (poll done) with
    | succeed d => simp [wanxPollGo, h]
    | fail e => simp [wanxPollGo, h]
    | keepPolling =>
      simp only [wanxPollGo, h]
      exact Nat.succ_le_succ (ih (done + 1))

/-- A 200-response whose status is `PENDING` or `RUNNING` makes the Wanx loop
body sleep and continue. -/
theorem wanxClassify_pending_running (taskId : String) (o : PollOutcome)
    (h : ∃ d, o = PollOutcome.resp 200 d ∧
      (d.taskStatus = some "PENDING" ∨ d.taskStatus = some "RUNNING")) :
    wanxClassify taskId o = PollStep.keepPolling := by
  obtain ⟨d, rfl, hd⟩ := h
  rcases hd with h1 | h1 <;> simp [wanxClassify, h1]

/-- If every poll cycle decides to keep polling, the Wanx loop runs its whole
budget and ends at the timeout raise site. -/
theorem wanxPollGo_always_running (taskId : String) (interval : Nat)
    (poll : Nat → PollOutcome)
    (hp : ∀ k, wanxClassify taskId (poll k) = PollStep.keepPolling) :
    ∀ remaining done, wanxPollGo taskId interval poll done remaining =
      (Except.error (PyErr.taskTimeoutError "任务执行超时" (some taskId)
        (some ((done + remaining) * interval))), remaining) := by
  intro remaining
  induction remaining with
  | zero => intro done; simp [wanxPollGo]
  | succ m ih =>
    intro done
    have harith : done + 1 + m = done + (m + 1) := by omega
    simp only [wanxPollGo, hp done]
    rw [ih (done + 1), harith]

/-- The Volc poll loop calls `_get_task_result` at most `remaining` times. -/
theorem volcPollGo_count_le (poll : Nat → Except PyErr VolcData) :
    ∀ remaining done, (volcPollGo poll done remaining).2 ≤ remaining := by
  intro remaining
  induction remaining with
  | zero => intro done; simp [volcPollGo]
  | succ m ih =>
    intro done
    cases h : poll done with
    | error e => simp [volcPollGo, h]
    | ok d =>
      by_cases hdone : d.status = some "done"
      · cases hvu : d.videoUrl <;> simp [volcPollGo, h, hdone, hvu]
      · by_cases hnf : d.status = some "not_found" ∨ d.status = some "expired"
        · simp [volcPollGo, h, hdone, hnf]
        · simp only [volcPollGo, h, if_neg hdone, if_neg hnf]
          exact Nat.succ_le_succ (ih (done + 1))

/-- If every `_get_task_result` call returns an `in_queue`/`generating` status,
the Volc loop runs its whole budget and ends at the (ill-formed) timeout raise
site. -/
theorem volcPollGo_always_running (poll : Nat → Except PyErr VolcData)
    (hp : ∀ k, ∃ d, poll k = Except.ok d ∧
      (d.status = some "in_queue" ∨ d.status = some "generating")) :
    ∀ remaining done, volcPollGo poll done remaining =
      (Except.error volcKwargTypeErr, remaining) := by
  intro remaining
  induction remaining with
  | zero => intro done; simp [volcPollGo]
  | succ m ih =>
    intro done
    obtain ⟨d, hpd, hst⟩ := hp done
    have hdone : ¬ d.status = some "done" := by
      rcases hst with h1 | h1 <;> simp [h1]
    have hnf : ¬ (d.status = some "not_found" ∨ d.status = some "expired") := by
      rcases hst with h1 | h1 <;> simp [h1]
    simp only [volcPollGo, hpd, if_neg hdone, if_neg hnf]
    rw [ih (done + 1)]

/-- A wrapped operation that raises the non-transient vendor rejection
`WanxService._create_task` produces for a 400 validation response, on every
invocation. -/
def c1NonTransientOp : Nat → Except PyErr String := fun _ =>
  Except.error (PyErr.dashScopeApiError "创建任务失败" 400 (some (.text "InvalidParameter")))

/-! ## Claims -/

/-- Claim C4: when the global `enable_retry` flag is false, `retry_decorator`
returns the original wrapped operation unchanged — a call executes the
operation exactly once, bypassing the tenacity wrapper entirely, and any
exception it raises propagates immediately with identical type and content. -/
theorem C4_retry_disable_bypass {α : Type} (maxAttempts : Nat)
    (op : Nat → Except PyErr α) :
    retry_decorator false maxAttempts op = (op 1, 1) := rfl

/-- Claim C1, as stated, is false: with retries enabled the decorator is plain
tenacity `retry` with its default predicate, which retries on EVERY exception.
A non-transient `DashScopeApiError` (status 400, a vendor validation
rejection) raised on each call does not propagate on first occurrence: the
wrapped operation is invoked 3 times, not once. -/
theorem C1_counterexample :
    (retry_decorator true 3 c1NonTransientOp).2 = 3 ∧
      ¬ (retry_decorator true 3 c1NonTransientOp).2 = 1 :=
  ⟨rfl, by decide⟩

/-- Claim C1 (amended): with retries enabled, the decorator retries on every
exception — non-transient vendor rejections included — so an operation that
raises on each invocation is invoked `maxAttempts` times, and only then is the
last exception re-raised unchanged (`reraise=True`). -/
theorem C1_amended {α : Type} (n : Nat) (op : Nat → Except PyErr α) (e : Nat → PyErr)
    (hop : ∀ k, op k = Except.error (e k)) :
    retry_decorator true (n + 1) op = (Except.error (e (n + 1)), n + 1) := by
  have h := tenacityRun_allFail op e hop n 1
  have harith : 1 + n = n + 1 := by omega
  simpa [retry_decorator, harith] using h

/-- Witness for C1 (amended): a vendor 400 rejection raised on every call is
retried until 3 invocations have happened, then re-raised unchanged. -/
theorem C1_amended_witness :
    retry_decorator true 3
      (fun _ => (Except.error (PyErr.dashScopeApiError "未获取到任务ID" 502 none) :
        Except PyErr String)) =
      (Except.error (PyErr.dashScopeApiError "未获取到任务ID" 502 none), 3) :=
  C1_amended 2 _ (fun _ => PyErr.dashScopeApiError "未获取到任务ID" 502 none) (fun _ => rfl)

/-- Claim C7: the retry delay after failed attempt `n` is
`clamp(multiplier * 2^(n-1), min, max)`; delays are monotone in the attempt
number, and once the delay reaches the configured max it stays at max. -/
theorem C7_backoff (multiplier wmin wmax : ℚ) (hmul : 0 ≤ multiplier)
    (hmin : 0 ≤ wmin) (hminmax : wmin ≤ wmax) :
    (∀ n : Nat, wait_exponential multiplier wmin wmax n
        = clampSpec (multiplier * 2 ^ (n - 1)) wmin wmax)
    ∧ (∀ n₁ n₂ : Nat, n₁ < n₂ →
        wait_exponential multiplier wmin wmax n₁ ≤ wait_exponential multiplier wmin wmax n₂)
    ∧ (∀ n₁ n₂ : Nat, n₁ ≤ n₂ → wait_exponential multiplier wmin wmax n₁ = wmax →
        wait_exponential multiplier wmin wmax n₂ = wmax) := by
  have hmono : ∀ n₁ n₂ : Nat, n₁ ≤ n₂ →
      wait_exponential multiplier wmin wmax n₁ ≤ wait_exponential multiplier wmin wmax n₂ := by
    intro n₁ n₂ hle
    unfold wait_exponential
    refine max_le_max le_rfl (min_le_min ?_ le_rfl)
    refine mul_le_mul_of_nonneg_left ?_ hmul
    exact pow_le_pow_right₀ (by norm_num) (Nat.sub_le_sub_right hle 1)
  have hub : ∀ n : Nat, wait_exponential multiplier wmin wmax n ≤ wmax := by
    intro n
    unfold wait_exponential
    exact max_le (max_le (hmin.trans hminmax) hminmax) (min_le_right _ _)
  refine ⟨?_, ?_, ?_⟩
  · intro n
    unfold wait_exponential clampSpec
    rw [max_eq_right hmin]
  · intro n₁ n₂ h
    exact hmono n₁ n₂ h.le
  · intro n₁ n₂ hle hmax
    refine le_antisymm (hub n₂) ?_
    calc wmax = wait_exponential multiplier wmin wmax n₁ := hmax.symm
      _ ≤ wait_exponential multiplier wmin wmax n₂ := hmono n₁ n₂ hle

/-- Witness for C7 at the repository's decorator configuration
(`wait_multiplier=1, wait_min=2, wait_max=10`): the delay formula at attempt 3,
monotonicity from attempt 2 to attempt 5, and stability at the max from
attempt 4 on. -/
theorem C7_backoff_witness :
    wait_exponential 1 2 10 3 = clampSpec (1 * 2 ^ 2) 2 10
    ∧ wait_exponential 1 2 10 2 ≤ wait_exponential 1 2 10 5
    ∧ (wait_exponential 1 2 10 4 = 10 → wait_exponential 1 2 10 6 = 10) := by
  have h := C7_backoff 1 2 10 (by norm_num) (by norm_num) (by norm_num)
  exact ⟨h.1 3, h.2.1 2 5 (by norm_num), h.2.2 4 6 (by norm_num)⟩

/-- Claim C3: each poller invokes its injected poll function at most
`maxAttempts` times for every poll function; and when every poll cycle yields
a still-running classification (`PENDING`/`RUNNING` for Wanx,
`in_queue`/`generating` for Volc), each poller makes exactly `maxAttempts`
poll calls and then raises the error at its timeout site — it never loops
beyond the budget. -/
theorem C3_poll_termination (taskId : String) (maxAttempts interval : Nat) :
    (∀ wpoll : Nat → PollOutcome,
      (wanxPollTask taskId maxAttempts interval wpoll).2 ≤ maxAttempts)
    ∧ (∀ vpoll : Nat → Except PyErr VolcData,
      (volcPollTask maxAttempts vpoll).2 ≤ maxAttempts)
    ∧ (∀ wpoll : Nat → PollOutcome,
      (∀ k, ∃ d, wpoll k = PollOutcome.resp 200 d ∧
        (d.taskStatus = some "PENDING" ∨ d.taskStatus = some "RUNNING")) →
      wanxPollTask taskId maxAttempts interval wpoll =
        (Except.error (PyErr.taskTimeoutError "任务执行超时" (some taskId)
          (some (maxAttempts * interval))), maxAttempts))
    ∧ (∀ vpoll : Nat → Except PyErr VolcData,
      (∀ k, ∃ d, vpoll k = Except.ok d ∧
        (d.status = some "in_queue" ∨ d.status = some "generating")) →
      volcPollTask maxAttempts vpoll = (Except.error volcKwargTypeErr, maxAttempts)) := by
  refine ⟨?_, ?_, ?_, ?_⟩
  · intro wpoll
    exact wanxPollGo_count_le taskId interval wpoll maxAttempts 0
  · intro vpoll
    exact volcPollGo_count_le vpoll maxAttempts 0
  · intro wpoll hw
    have hcl : ∀ k, wanxClassify taskId (wpoll k) = PollStep.keepPolling :=
      fun k => wanxClassify_pending_running taskId (wpoll k) (hw k)
    have h := wanxPollGo_always_running taskId interval wpoll hcl maxAttempts 0
    simpa [wanxPollTask] using h
  · intro vpoll hv
    exact volcPollGo_always_running vpoll hv maxAttempts 0

/-- Witness for C3: with a Wanx poll function that always reports `RUNNING`
and `maxAttempts = 3, interval = 5`, the poller makes exactly 3 calls and
raises `TaskTimeoutError` with elapsed 15; with a Volc poll function that
always reports `in_queue` and budget 4 it makes exactly 4 calls and ends at
its timeout raise site. -/
theorem C3_poll_termination_witness :
    wanxPollTask "task-1" 3 5 (fun _ => PollOutcome.resp 200 ⟨some "RUNNING", none, ""⟩) =
      (Except.error (PyErr.taskTimeoutError "任务执行超时" (some "task-1") (some 15)), 3)
    ∧ volcPollTask 4 (fun _ => Except.ok ⟨some "in_queue", none, ""⟩) =
      (Except.error volcKwargTypeErr, 4) :=
  ⟨(C3_poll_termination "task-1" 3 5).2.2.1 _
      (fun _ => ⟨⟨some "RUNNING", none, ""⟩, rfl, Or.inr rfl⟩),
    (C3_poll_termination "task-1" 4 5).2.2.2 _
      (fun _ => ⟨⟨some "in_queue", none, ""⟩, rfl, Or.inl rfl⟩)⟩

/-- A Volc poll function that reports `in_queue` forever. -/
def c5RunningPoll : Nat → Except PyErr VolcData := fun _ =>
  Except.ok ⟨some "in_queue", none, ""⟩

/-- Claim C5, as stated, is false for `VolcVideoService._poll_task_result`:
when its attempt budget (here 2) is exhausted without a terminal state, the
error raised is not a TaskTimeout-class error at all — the timeout raise site
passes the unsupported keyword `details` to `ApiError`, so a `TypeError` is
raised, carrying neither job id nor elapsed wait, and of the same (non-)class
as nothing in the failure taxonomy. -/
theorem C5_counterexample :
    (volcPollTask 2 c5RunningPoll).2 = 2
    ∧ errIsTaskTimeout (volcPollTask 2 c5RunningPoll).1 = false
    ∧ (volcPollTask 2 c5RunningPoll).1 = Except.error volcKwargTypeErr :=
  ⟨rfl, rfl, rfl⟩

/-- Claim C5 (amended): `WanxService._poll_task` does raise, on budget
exhaustion, a `TaskTimeoutError` — a type distinct from `TaskFailedError` —
carrying the job id and the elapsed wait `maxAttempts * pollInterval`;
`VolcVideoService._poll_task_result` does not: on budget exhaustion its raised
error is not TaskTimeout-class (the `ApiError(..., details=...)` call raises
`TypeError`). -/
theorem C5_amended (taskId : String) (maxAttempts interval : Nat)
    (wpoll : Nat → PollOutcome)
    (hw : ∀ k, ∃ d, wpoll k = PollOutcome.resp 200 d ∧
      (d.taskStatus = some "PENDING" ∨ d.taskStatus = some "RUNNING")) :
    (wanxPollTask taskId maxAttempts interval wpoll).1 =
      Except.error (PyErr.taskTimeoutError "任务执行超时" (some taskId)
        (some (maxAttempts * interval)))
    ∧ (∀ m t d m2 t2 t3, PyErr.taskFailedError m t d ≠ PyErr.taskTimeoutError m2 t2 t3)
    ∧ (∀ vpoll : Nat → Except PyErr VolcData,
        (∀ k, ∃ d, vpoll k = Except.ok d ∧
          (d.status = some "in_queue" ∨ d.status = some "generating")) →
        errIsTaskTimeout (volcPollTask maxAttempts vpoll).1 = false) := by
  refine ⟨?_, ?_, ?_⟩
  · have hcl : ∀ k, wanxClassify taskId (wpoll k) = PollStep.keepPolling :=
      fun k => wanxClassify_pending_running taskId (wpoll k) (hw k)
    have h := wanxPollGo_always_running taskId interval wpoll hcl maxAttempts 0
    simp [wanxPollTask, h]
  · intro m t d m2 t2 t3 h
    cases h
  · intro vpoll hv
    have h := volcPollGo_always_running vpoll hv maxAttempts 0
    simp [volcPollTask, h, errIsTaskTimeout, volcKwargTypeErr]

/-- Witness for C5 (amended): concrete Wanx and Volc runs with always-running
poll functions. -/
theorem C5_amended_witness :
    (wanxPollTask "task-9" 2 5 (fun _ => PollOutcome.resp 200 ⟨some "PENDING", none, ""⟩)).1 =
      Except.error (PyErr.taskTimeoutError "任务执行超时" (some "task-9") (some 10))
    ∧ errIsTaskTimeout (volcPollTask 2 (fun _ =>
        Except.ok (⟨some "generating", none, ""⟩ : VolcData))).1 = false := by
  have h := C5_amended "task-9" 2 5 (fun _ => PollOutcome.resp 200 ⟨some "PENDING", none, ""⟩)
    (fun _ => ⟨⟨some "PENDING", none, ""⟩, rfl, Or.inl rfl⟩)
  exact ⟨h.1, h.2.2 _ (fun _ => ⟨⟨some "generating", none, ""⟩, rfl, Or.inr rfl⟩)⟩

/-- Claim C6, as stated, is false in its exception clause: when the vendor
poll call itself fails with an unambiguous terminal HTTP error (a 404
response), both Wanx poll loops log a warning, sleep and continue — the cycle
is classified keep-polling, never `Failed`. -/
theorem C6_counterexample :
    wanxClassify "task-1" (PollOutcome.resp 404 ⟨none, none, "not found"⟩) =
      PollStep.keepPolling
    ∧ wanxI2IClassify (PollOutcome.resp 404 ⟨none, none, "not found"⟩) =
      PollStep.keepPolling
    ∧ stepIsFail (wanxClassify "task-1" (PollOutcome.resp 404 ⟨none, none, "not found"⟩)) =
      false :=
  ⟨rfl, rfl, rfl⟩

/-- Claim C6 (amended): every poll cycle that is not a 200 response with a
recognized status — an unrecognized status string, a non-200 HTTP response,
or a raised transport error — is treated as still running by both
`WanxService._poll_task` and `WanxI2IService._poll_task`: the loop sleeps and
continues, and in particular a failing vendor poll call is never classified as
`Failed`. -/
theorem C6_amended (taskId : String) (o : PollOutcome)
    (h : (∃ m, o = PollOutcome.httpRaise m)
      ∨ (∃ code d, o = PollOutcome.resp code d ∧
          (code ≠ 200 ∨ recognizedStatus d.taskStatus = false))) :
    wanxClassify taskId o = PollStep.keepPolling
    ∧ wanxI2IClassify o = PollStep.keepPolling := by
  rcases h with ⟨m, rfl⟩ | ⟨code, d, rfl, hcase⟩
  · exact ⟨rfl, rfl⟩
  · rcases hcase with hc | hs
    · constructor <;> simp [wanxClassify, wanxI2IClassify, hc]
    · simp only [recognizedStatus, Bool.or_eq_false_iff, beq_eq_false_iff_ne, ne_eq] at hs
      obtain ⟨⟨⟨h1, h2⟩, h3⟩, h4⟩ := hs
      by_cases hc : code = 200
      · subst hc
        constructor <;> simp [wanxClassify, wanxI2IClassify, h1, h2, h3, h4]
      · constructor <;> simp [wanxClassify, wanxI2IClassify, hc]

/-- Witness for C6 (amended): the unrecognized status string `"UNKNOWN"` in a
200 response keeps both pollers polling. -/
theorem C6_amended_witness :
    wanxClassify "task-1" (PollOutcome.resp 200 ⟨some "UNKNOWN", none, ""⟩) =
      PollStep.keepPolling
    ∧ wanxI2IClassify (PollOutcome.resp 200 ⟨some "UNKNOWN", none, ""⟩) =
      PollStep.keepPolling :=
  C6_amended "task-1" _ (Or.inr ⟨200, ⟨some "UNKNOWN", none, ""⟩, rfl, Or.inr rfl⟩)

/-- Claim C8: whenever the fully folded SSE stream state carries both an
extracted video URL and an error message, `_parse_stream_response` raises the
generation-failed `ApiError` carrying the error message, and never returns the
extracted URL: Failed wins over Succeeded. -/
theorem C8_classifier_precedence (lines : List SSELine) (u m : String)
    (_hu : (soraFold ⟨none, none⟩ lines).videoUrl = some u)
    (hm : (soraFold ⟨none, none⟩ lines).errorMessage = some m) :
    soraParseStream lines =
      Except.error (PyErr.apiError "视频生成失败" 500 (some (.text m)))
    ∧ ∀ v : String, soraParseStream lines ≠ Except.ok v := by
  have hres : soraParseStream lines =
      Except.error (PyErr.apiError "视频生成失败" 500 (some (.text m))) := by
    simp only [soraParseStream, hm]
  exact ⟨hres, fun v hv => by rw [hres] at hv; cases hv⟩

/-- Witness for C8: a stream whose chunks carry an error message and then a
successful-generation link; the parser raises the generation-failed error and
does not return the URL. -/
theorem C8_classifier_precedence_witness :
    soraParseStream
      [SSELine.content "错误: quota exceeded",
       SSELine.content "视频生成成功！[点击这里](https://cdn.example.com/v.mp4)"] =
      Except.error (PyErr.apiError "视频生成失败" 500 (some (.text "错误: quota exceeded")))
    ∧ ∀ v : String,
        soraParseStream
          [SSELine.content "错误: quota exceeded",
           SSELine.content "视频生成成功！[点击这里](https://cdn.example.com/v.mp4)"] ≠
          Except.ok v :=
  C8_classifier_precedence
    [SSELine.content "错误: quota exceeded",
     SSELine.content "视频生成成功！[点击这里](https://cdn.example.com/v.mp4)"]
    "https://cdn.example.com/v.mp4" "错误: quota exceeded" rfl rfl

/-- A download that raises `httpx.HTTPError` on every invocation. -/
def c2FailFetch : Nat → Except String Nat := fun _ => Except.error "connect timeout"

/-- An upload that would succeed, were it ever reached. -/
def c2Upload : Nat → Nat → Except PyErr UploadResult := fun _ _ =>
  Except.ok ⟨"videos/x.mp4", "https://oss.example.com/videos/x.mp4", 10,
    some "video/mp4", "etag-1", "bucket-1"⟩

/-- Claim C2, as stated, is false for `SoraService._save_video_to_oss`: when
fetching the ephemeral URL fails on every attempt, the operation does not
return the original ephemeral URL marked non-durable — after its three retry
attempts it raises `ApiError("下载视频失败")` to the caller. -/
theorem C2_counterexample :
    (soraSaveVideoToOss true 3 c2FailFetch c2Upload).1 =
      Except.error (PyErr.apiError "下载视频失败" 500
        (some (.text "无法从临时URL下载视频: connect timeout")))
    ∧ resultIsOk (soraSaveVideoToOss true 3 c2FailFetch c2Upload).1 = false :=
  ⟨rfl, rfl⟩

/-- Claim C2 (amended): `VolcVideoService._save_video_to_oss` never raises —
if the upload fails (raises), it returns the original ephemeral URL (with only
a logged warning; there is no explicit durable flag in the code) —
whereas `SoraService._save_video_to_oss` raises an `ApiError` when the fetch
fails on every retry attempt, losing the result to the caller's error path. -/
theorem C2_amended (tempUrl videoType timestamp : String)
    (upload : String → String → Except PyErr UploadResult) (e : PyErr)
    (hup : ∀ u f, upload u f = Except.error e)
    (n : Nat) (fetch : Nat → Except String Nat) (em : Nat → String)
    (hfetch : ∀ k, fetch k = Except.error (em k))
    (upf : Nat → Nat → Except PyErr UploadResult) :
    volcSaveVideoToOss tempUrl videoType timestamp upload = tempUrl
    ∧ (soraSaveVideoToOss true (n + 1) fetch upf).1 =
      Except.error (PyErr.apiError "下载视频失败" 500
        (some (.text ("无法从临时URL下载视频: " ++ em (n + 1))))) := by
  constructor
  · simp [volcSaveVideoToOss, hup]
  · have hop : ∀ k, soraSaveAttempt (fetch k) (upf k) =
        Except.error (PyErr.apiError "下载视频失败" 500
          (some (.text ("无法从临时URL下载视频: " ++ em k)))) := by
      intro k
      simp [soraSaveAttempt, hfetch k]
    have h := tenacityRun_allFail (fun k => soraSaveAttempt (fetch k) (upf k))
      (fun k => PyErr.apiError "下载视频失败" 500
        (some (.text ("无法从临时URL下载视频: " ++ em k)))) hop n 1
    have harith : 1 + n = n + 1 := by omega
    simp only [soraSaveVideoToOss, retry_decorator, if_pos rfl, h, harith]
    simp

/-- Witness for C2 (amended): a concrete always-failing upload makes the Volc
relocation degrade to the ephemeral URL, and a concrete always-failing fetch
makes the Sora relocation raise. -/
theorem C2_amended_witness :
    volcSaveVideoToOss "https://temp/v.mp4" "t2v" "20250101_000000"
      (fun _ _ => Except.error (PyErr.apiError "文件上传失败" 500 none)) =
      "https://temp/v.mp4"
    ∧ (soraSaveVideoToOss true 3 (fun _ => Except.error "read timeout") c2Upload).1 =
      Except.error (PyErr.apiError "下载视频失败" 500
        (some (.text "无法从临时URL下载视频: read timeout"))) :=
  C2_amended "https://temp/v.mp4" "t2v" "20250101_000000"
    (fun _ _ => Except.error (PyErr.apiError "文件上传失败" 500 none))
    (PyErr.apiError "文件上传失败" 500 none) (fun _ _ => rfl)
    2 (fun _ => Except.error "read timeout") (fun _ => "read timeout")
    (fun _ => rfl) c2Upload

/-- Claim C9: `OSSService.upload_from_url` leaves the service's
`max_file_size` attribute equal to its pre-call value, whether the call
returns or raises (the limit is set to `float("inf")` only around the nested
`upload_file` and restored in a `finally`); consequently the size-limit check
never rejects a URL-sourced download — whenever the download succeeds,
`put_object` is reached regardless of the downloaded size. -/
theorem C9_limit_restored (maxFileSize : SizeLimit)
    (download : Except String (Nat × Option String)) (objectKey : String)
    (publicRead : Bool) (publicUrl signedUrl : String → String)
    (bucketName : String) (put : PutOutcome) :
    (oss_upload_from_url maxFileSize download objectKey publicRead publicUrl
        signedUrl bucketName put).1 = maxFileSize
    ∧ (∀ fileSize contentType, download = Except.ok (fileSize, contentType) →
        (oss_upload_from_url maxFileSize download objectKey publicRead publicUrl
          signedUrl bucketName put).2.2 = true)
    ∧ (∀ fileSize : Nat, sizeExceeds fileSize SizeLimit.inf = false) := by
  refine ⟨?_, ?_, fun _ => rfl⟩
  · cases download with
    | error msg => rfl
    | ok p =>
      cases put <;>
        simp [oss_upload_from_url, oss_upload_file, sizeExceeds]
  · intro fileSize contentType hdl
    subst hdl
    cases put <;>
      simp [oss_upload_from_url, oss_upload_file, sizeExceeds]

/-- Witness for C9: a concrete 500 MB download against a 10 MB configured
limit — the limit attribute is unchanged after the call and `put_object` was
invoked. -/
theorem C9_limit_restored_witness :
    (oss_upload_from_url (SizeLimit.finite 10485760)
        (Except.ok (524288000, some "video/mp4")) "videos/2025/01/01/x.mp4" true
        (fun k => "https://bucket-1.oss.example.com/" ++ k) (fun k => k)
        "bucket-1" (PutOutcome.ok "etag-2")).1 = SizeLimit.finite 10485760
    ∧ (oss_upload_from_url (SizeLimit.finite 10485760)
        (Except.ok (524288000, some "video/mp4")) "videos/2025/01/01/x.mp4" true
        (fun k => "https://bucket-1.oss.example.com/" ++ k) (fun k => k)
        "bucket-1" (PutOutcome.ok "etag-2")).2.2 = true := by
  have h := C9_limit_restored (SizeLimit.finite 10485760)
    (Except.ok (524288000, some "video/mp4")) "videos/2025/01/01/x.mp4" true
    (fun k => "https://bucket-1.oss.example.com/" ++ k) (fun k => k)
    "bucket-1" (PutOutcome.ok "etag-2")
  exact ⟨h.1, h.2.1 524288000 (some "video/mp4") rfl⟩

/-- Claim C10: when the input stream holds more than `max_file_size` bytes,
`OSSService.upload_file` raises an `ApiError` (the size-limit `ApiError`,
re-wrapped by the trailing `except Exception` clause) and `bucket.put_object`
is never invoked. -/
theorem C10_size_limit_no_put (m fileSize : Nat) (h : m < fileSize)
    (objectKey : String) (contentType : Option String) (publicRead : Bool)
    (publicUrl signedUrl : String → String) (bucketName : String)
    (put : PutOutcome) :
    oss_upload_file (SizeLimit.finite m) fileSize objectKey contentType
      publicRead publicUrl signedUrl bucketName put =
      (Except.error (PyErr.apiError "文件上传失败" 500
        (some (.text "文件大小超过限制"))), false) := by
  simp [oss_upload_file, sizeExceeds, h]

/-- Witness for C10: an 11-byte stream against a 10-byte limit is rejected
with an `ApiError` and no `put_object` call. -/
theorem C10_size_limit_no_put_witness :
    oss_upload_file (SizeLimit.finite 10) 11 "uploads/a.bin" none true
      (fun k => k) (fun k => k) "bucket-1" (PutOutcome.ok "etag-3") =
      (Except.error (PyErr.apiError "文件上传失败" 500
        (some (.text "文件大小超过限制"))), false) :=
  C10_size_limit_no_put 10 11 (by norm_num) "uploads/a.bin" none true
    (fun k => k) (fun k => k) "bucket-1" (PutOutcome.ok "etag-3")

end VideoGen
